import Mathlib

/-!
Shallow embedding of the certificate-enrollment core of the
vault-pki-backend-venafi plugin (Go), for checking the natural-language
specification against the code.

Source files embedded:
- plugin/pki/path_venafi_cert_enroll.go : role-driven enrollment
  (pathVenafiCertObtain, createVenafiCSR, VenafiCert)
- the revocation stub (venafiCertRevoke)

External collaborators (the Venafi CA client, the PEM/X.509 parsers of the
Go standard library, the Vault storage backend, key-generation randomness)
are modelled as explicit inputs: the CA client is a list of retrieval
outcomes, parsers are function parameters returning Option, storage is an
association list, and generated keys are algorithm-tagged symbolic values.
-/

namespace VenafiPKI

/-- Decidable equality for Except values, used to evaluate the embedded
functions on concrete inputs. -/
instance instDecEqExcept {ε α : Type} [DecidableEq ε] [DecidableEq α] :
    DecidableEq (Except ε α) := fun x y =>
  match x, y with
  | Except.error e, Except.error f =>
    if h : e = f then isTrue (by rw [h])
    else isFalse (by intro hc; cases hc; exact h rfl)
  | Except.error _, Except.ok _ => isFalse (by intro hc; cases hc)
  | Except.ok _, Except.error _ => isFalse (by intro hc; cases hc)
  | Except.ok a, Except.ok b =>
    if h : a = b then isTrue (by rw [h])
    else isFalse (by intro hc; cases hc; exact h rfl)

/-- Role policy fields read by the enrollment path (KeyType, KeyBits,
KeyCurve, StoreByCN, StoreBySerial, StorePrivateKey, GenerateLease). -/
structure RolePolicy where
  keyType : String
  keyBits : Nat
  keyCurve : String
  storeByCN : Bool
  storeBySerial : Bool
  storePrivateKey : Bool
  generateLease : Bool
deriving DecidableEq

/-- The privateKey parameter struct of createVenafiCSR (keyBits, keyCurve,
keyType). -/
structure PrivKeyParams where
  keyBits : Nat
  keyCurve : String
  keyType : String
deriving DecidableEq

/-- vcert key-type tag; the Go zero value of vcertificate.KeyType is RSA. -/
inductive KeyType where
  | rsa
  | ecdsa
deriving DecidableEq

/-- The four named elliptic curves the builder can select. -/
inductive ECCurve where
  | p224
  | p256
  | p384
  | p521
deriving DecidableEq

/-- Generated key material, algorithm-tagged; randomness is abstracted
away, only the selected algorithm parameters are tracked. A curve value of
none means the key request carried no curve setting (the vcert default). -/
inductive KeyMaterial where
  | rsa (bits : Nat)
  | ecdsa (curve : Option ECCurve)
deriving DecidableEq

/-- The fields of vcertificate.Request that createVenafiCSR sets. A
keyCurve of none is the Go zero value: no curve setting. -/
structure VReq where
  subjectCN : String
  dnsNames : List String
  keyType : KeyType
  keyLength : Nat
  keyCurve : Option ECCurve
deriving DecidableEq

/-- Modelled from the spec: the repository helper sliceContains (not under
src/) is a membership test on a string slice, per the spec wording
"Ensures commonName appears in the alternative-name set (appends if
missing)". -/
def sliceContains (xs : List String) (s : String) : Bool :=
  xs.any (fun x => x = s)

/-- The common-name promotion done both by pathVenafiCertObtain and by
createVenafiCSR: if commonName is empty and altNames is non-empty, the
first alternative name becomes the commonName. -/
def promoteCN (commonName : String) (altNames : List String) : String :=
  if commonName = "" ∧ altNames ≠ [] then altNames.headD "" else commonName

/-- DNS-name assembly of createVenafiCSR: copy altNames, then append the
commonName if sliceContains does not find it. -/
def buildDNSNames (altNames : List String) (commonName : String) : List String :=
  if sliceContains altNames commonName then altNames else altNames ++ [commonName]

/-- The request value before key-parameter selection: subject common name
and DNS names set, key fields at their Go zero values. -/
def baseReq (commonName : String) (altNames : List String) : VReq :=
  { subjectCN := commonName
    dnsNames := buildDNSNames altNames commonName
    keyType := KeyType.rsa
    keyLength := 0
    keyCurve := none }

/-- Key-parameter dispatch of createVenafiCSR: "rsa" sets KeyLength,
"ec" sets KeyType ECDSA and maps keyCurve over the four named curves with
a silent default fallthrough, anything else is an error. -/
def setKeyParams (req : VReq) (pk : PrivKeyParams) : Except String VReq :=
  if pk.keyType = "rsa" then
    Except.ok { req with keyLength := pk.keyBits }
  else if pk.keyType = "ec" then
    if pk.keyCurve = "P224" then
      Except.ok { req with keyType := KeyType.ecdsa, keyCurve := some ECCurve.p224 }
    else if pk.keyCurve = "P256" then
      Except.ok { req with keyType := KeyType.ecdsa, keyCurve := some ECCurve.p256 }
    else if pk.keyCurve = "P384" then
      Except.ok { req with keyType := KeyType.ecdsa, keyCurve := some ECCurve.p384 }
    else if pk.keyCurve = "P521" then
      Except.ok { req with keyType := KeyType.ecdsa, keyCurve := some ECCurve.p521 }
    else
      Except.ok { req with keyType := KeyType.ecdsa }
  else
    Except.error ("can\x27t determine key algorithm " ++ pk.keyType)

/-- The key-generation switch of createVenafiCSR: ECDSA keys are generated
from the request curve setting, RSA keys from the request key length. -/
def generateKey (req : VReq) : KeyMaterial :=
  match req.keyType with
  | KeyType.ecdsa => KeyMaterial.ecdsa req.keyCurve
  | KeyType.rsa => KeyMaterial.rsa req.keyLength

/-- createVenafiCSR: validates that at least one name is present, promotes
the first alternative name to commonName when commonName is empty, builds
the DNS-name list, dispatches on the key type and generates the key. -/
def createVenafiCSR (commonName : String) (altNames : List String) (pk : PrivKeyParams) :
    Except String (VReq × KeyMaterial) :=
  if commonName = "" ∧ altNames = [] then
    Except.error "no domains specified on certificate"
  else
    match setKeyParams (baseReq (promoteCN commonName altNames) altNames) pk with
    | Except.error e => Except.error e
    | Except.ok req => Except.ok (req, generateKey req)

example :
    createVenafiCSR "example.com" ["www.example.com"] ⟨2048, "", "rsa"⟩ =
      Except.ok (⟨"example.com", ["www.example.com", "example.com"],
        KeyType.rsa, 2048, none⟩, KeyMaterial.rsa 2048) := by decide

example :
    createVenafiCSR "a" ["a", "a"] ⟨2048, "", "rsa"⟩ =
      Except.ok (⟨"a", ["a", "a"], KeyType.rsa, 2048, none⟩, KeyMaterial.rsa 2048) := by
  decide

example :
    createVenafiCSR "e.com" [] ⟨0, "P999", "ec"⟩ =
      Except.ok (⟨"e.com", ["e.com"], KeyType.ecdsa, 0, none⟩,
        KeyMaterial.ecdsa none) := by decide

example :
    createVenafiCSR "e.com" [] ⟨0, "", "dsa"⟩ =
      Except.error "can\x27t determine key algorithm dsa" := by decide

/-- The PEMCollection returned by the CA client on successful retrieval:
the leaf certificate PEM and the chain PEMs. -/
structure PEMCollection where
  certificate : String
  chain : List String
deriving DecidableEq

/-- One outcome of a cl.RetrieveCertificate call: issued collection,
ErrCertificatePending, ErrRetrieveCertificateTimeout, or any other
error. -/
inductive RetrieveOutcome where
  | issued (c : PEMCollection)
  | pending
  | timeout
  | err (msg : String)
deriving DecidableEq

/-- True exactly for the outcomes on which the retrieval loop sleeps and
retries. -/
def isRetryable : RetrieveOutcome → Bool
  | RetrieveOutcome.pending => true
  | RetrieveOutcome.timeout => true
  | _ => false

/-- Duration in seconds of the fixed sleep before each retry
(time.Sleep(5 * time.Second)). -/
def retrySleepSeconds : Nat := 5

/-- The retrieval loop of pathVenafiCertObtain, driven by the sequence of
outcomes the CA client produces, with an accumulator counting the retry
sleeps (each of retrySleepSeconds). Pending and timeout sleep and
continue; any other error ends the loop with that error; an issued
collection ends it with success. A return of none means the loop is still
running after consuming the whole outcome sequence: the source loop has no
attempt bound, so an all-retryable sequence never terminates it. -/
def retrieveLoop : List RetrieveOutcome → Nat → Option (Except String PEMCollection × Nat)
  | [], _ => none
  | RetrieveOutcome.issued c :: _, sleeps => some (Except.ok c, sleeps)
  | RetrieveOutcome.pending :: rest, sleeps => retrieveLoop rest (sleeps + 1)
  | RetrieveOutcome.timeout :: rest, sleeps => retrieveLoop rest (sleeps + 1)
  | RetrieveOutcome.err m :: _, sleeps => some (Except.error m, sleeps)

example :
    retrieveLoop [RetrieveOutcome.pending, RetrieveOutcome.pending,
        RetrieveOutcome.issued ⟨"PEM", []⟩] 0 =
      some (Except.ok ⟨"PEM", []⟩, 2) := by decide

example : retrieveLoop [RetrieveOutcome.err "boom"] 0 = some (Except.error "boom", 0) := by
  decide

/-- Result of pem.Decode, abstracted: the decoded block carries the DER
bytes. -/
structure PemBlock where
  bytes : List Nat
deriving DecidableEq

/-- Result of x509.ParseCertificate, abstracted: the fields the enrollment
path reads (SerialNumber bytes and NotAfter as seconds). -/
structure ParsedCert where
  serialBytes : List Nat
  notAfter : Int
deriving DecidableEq

/-- An uppercase hexadecimal digit. -/
def hexDigit (n : Nat) : Char :=
  if n < 10 then Char.ofNat (48 + n) else Char.ofNat (55 + n)

/-- Two-digit uppercase hexadecimal rendering of one byte. -/
def byteToHex (b : Nat) : String :=
  String.mk [hexDigit (b / 16 % 16), hexDigit (b % 16)]

/-- Modelled from the spec: the repository helper getHexFormatted (not
under src/) renders the serial bytes as separator-delimited uppercase hex
octets ("colon-delimited uppercase hex octets"). -/
def getHexFormatted (buf : List Nat) (sep : String) : String :=
  String.intercalate sep (buf.map byteToHex)

/-- Modelled from the spec: the repository helper normalizeSerial (not
under src/) turns the colon-delimited serial into the flat form used in
the storage key (certs/normalizedSerialNoColons). -/
def normalizeSerial (serial : String) : String :=
  String.mk (serial.data.map (fun c => if c = ':' then '-' else c))

example : getHexFormatted [0xAA, 0xBB] ":" = "AA:BB" := by decide

example : normalizeSerial "AA:BB" = "AA-BB" := by decide

/-- Outcome of the certificate-parsing step (source lines 119-122). The
source ignores the pem.Decode and x509.ParseCertificate failures and
dereferences the returned pointers unconditionally, so a decode or parse
failure is a nil-pointer dereference: modelled as crash. -/
inductive MatResult where
  | crash
  | ok (parsed : ParsedCert) (serialNumber : String)
deriving DecidableEq

/-- The certificate-materializing step of pathVenafiCertObtain: decode the
leaf PEM, parse the DER, format the serial number. A failed decode or
parse crashes (nil-pointer dereference in the source, which never checks
the error). -/
def materializeCert (decodePem : String → Option PemBlock)
    (parseCert : List Nat → Option ParsedCert) (certificate : String) : MatResult :=
  match decodePem certificate with
  | none => MatResult.crash
  | some blk =>
    match parseCert blk.bytes with
    | none => MatResult.crash
    | some parsed => MatResult.ok parsed (getHexFormatted parsed.serialBytes ":")

/-- The persisted record (VenafiCert struct). A missing private key is the
Go zero value, the empty string. -/
structure VenafiCert where
  certificate : String
  certificateChain : String
  privateKey : String
  serialNumber : String
deriving DecidableEq

/-- The storage-entry construction (source lines 129-142): the private key
is included exactly when the role's StorePrivateKey flag is set. -/
def venafiCertEntry (storePrivateKey : Bool) (certificate chain encodedKey serialNumber : String) :
    VenafiCert :=
  if storePrivateKey then
    ⟨certificate, chain, encodedKey, serialNumber⟩
  else
    ⟨certificate, chain, "", serialNumber⟩

/-- The Vault storage backend, abstracted as an association list with
last-writer-wins lookup. -/
def Storage : Type := List (String × VenafiCert)

/-- A successful req.Storage.Put: the new pair shadows older ones. -/
def putEntry (st : Storage) (key : String) (v : VenafiCert) : Storage :=
  (key, v) :: st

/-- Lookup in the abstracted storage. -/
def getEntry (st : Storage) (key : String) : Option VenafiCert :=
  (List.find? (fun p => p.1 = key) st).map (fun p => p.2)

/-- One conditional storage write: when doStore is set, either the write
fails (failPut) leaving state and trace unchanged, or it succeeds,
updating the storage and appending to the write trace. -/
def putStep (doStore : Bool) (key : String) (entry : VenafiCert) (failPut : String → Bool)
    (st : Storage) (tr : List (String × VenafiCert)) :
    Storage × List (String × VenafiCert) × Bool :=
  if doStore then
    if failPut key then (st, tr, false)
    else (putEntry st key entry, tr ++ [(key, entry)], true)
  else (st, tr, true)

/-- The persistence step of pathVenafiCertObtain (source lines 144-166):
first the CN-keyed write when StoreByCN, returning early on failure, then
the serial-keyed write when StoreBySerial. The same entry value is written
under both keys (the source mutates entry.Key between the two Puts). The
Bool is false exactly when a Put failed. -/
def persistCert (role : RolePolicy) (entry : VenafiCert) (commonName serialNumber : String)
    (failPut : String → Bool) (st : Storage) :
    Storage × List (String × VenafiCert) × Bool :=
  match putStep role.storeByCN ("certs/" ++ commonName) entry failPut st [] with
  | (st1, tr1, false) => (st1, tr1, false)
  | (st1, tr1, true) =>
    putStep role.storeBySerial ("certs/" ++ normalizeSerial serialNumber) entry failPut st1 tr1

/-- The data map of the response (source lines 168-174); the private key
is always present. -/
structure RespData where
  commonName : String
  serialNumber : String
  certificateChain : String
  certificate : String
  privateKey : String
deriving DecidableEq

/-- The final logical response: either a flat data response or a leased
secret whose internal data holds the serial number, with the TTL the core
set. -/
inductive LogResp where
  | plain (data : RespData)
  | leased (data : RespData) (internalSerialNumber : String) (ttl : Int)
deriving DecidableEq

/-- The data map carried by a response of either shape. -/
def LogResp.dataOf : LogResp → RespData
  | LogResp.plain d => d
  | LogResp.leased d _ _ => d

/-- Response assembly (source lines 176-193): with GenerateLease false the
data is returned flat; otherwise a leased secret keyed internally by the
serial number is returned, with TTL set to NotAfter minus the current
time, unvalidated. -/
def buildResponse (generateLease : Bool) (d : RespData) (serialNumber : String)
    (notAfter now : Int) : LogResp :=
  if generateLease = false then LogResp.plain d
  else LogResp.leased d serialNumber (notAfter - now)

/-- Overall outcome of one pathVenafiCertObtain run. errorResponse is a
logical.ErrorResponse return; internalError is a (nil, err) return (the
storage Put failure path); crash is a nil-pointer dereference;
stillPolling means the retrieval loop is still running after the supplied
CA outcomes. -/
inductive ObtainResult where
  | errorResponse (msg : String)
  | internalError
  | crash
  | stillPolling
  | ok (resp : LogResp)
deriving DecidableEq

/-- Result, final storage state and write trace of one obtain run. -/
structure ObtainOutcome where
  result : ObtainResult
  storage : Storage
  writes : List (String × VenafiCert)

/-- The certificate field of the response and record: the leaf PEM alone
(strings.Join of the one-element slice). -/
def leafString (cert : PEMCollection) : String :=
  String.intercalate "\n" [cert.certificate]

/-- The certificate_chain field: leaf followed by the chain, joined with
newlines. -/
def chainString (cert : PEMCollection) : String :=
  String.intercalate "\n" (cert.certificate :: cert.chain)

/-- The storage entry built for one enrollment. -/
def entryOf (role : RolePolicy) (cert : PEMCollection) (encodedKey serialNumber : String) :
    VenafiCert :=
  venafiCertEntry role.storePrivateKey (leafString cert) (chainString cert)
    encodedKey serialNumber

/-- The response data map of one enrollment; the private key is present
unconditionally. -/
def respDataOf (commonName serialNumber : String) (cert : PEMCollection)
    (encodedKey : String) : RespData :=
  ⟨commonName, serialNumber, chainString cert, leafString cert, encodedKey⟩

/-- The tail of pathVenafiCertObtain after a successful parse: build the
certificate and chain strings, build the storage entry, run the persistence
step, and assemble the response (or surface the Put failure). -/
def afterMaterialize (role : RolePolicy) (commonName : String) (cert : PEMCollection)
    (parsed : ParsedCert) (serialNumber : String) (encodedKey : String)
    (failPut : String → Bool) (st : Storage) (now : Int) : ObtainOutcome :=
  if (persistCert role (entryOf role cert encodedKey serialNumber)
      commonName serialNumber failPut st).2.2 then
    ⟨ObtainResult.ok (buildResponse role.generateLease
        (respDataOf commonName serialNumber cert encodedKey)
        serialNumber parsed.notAfter now),
      (persistCert role (entryOf role cert encodedKey serialNumber)
        commonName serialNumber failPut st).1,
      (persistCert role (entryOf role cert encodedKey serialNumber)
        commonName serialNumber failPut st).2.1⟩
  else
    ⟨ObtainResult.internalError,
      (persistCert role (entryOf role cert encodedKey serialNumber)
        commonName serialNumber failPut st).1,
      (persistCert role (entryOf role cert encodedKey serialNumber)
        commonName serialNumber failPut st).2.1⟩

/-- pathVenafiCertObtain, the enrollment orchestrator. External
collaborators are explicit inputs: submit is the RequestCertificate
outcome, outcomes the sequence of RetrieveCertificate outcomes, decodePem
and parseCert the Go parsers, encodedKey the PEM encoding of the generated
private key, failPut the storage failure behavior, st the storage, now the
issuance-time clock reading. -/
def pathVenafiCertObtain (role : RolePolicy) (commonName : String) (altNames : List String)
    (submit : Except String String) (outcomes : List RetrieveOutcome)
    (decodePem : String → Option PemBlock) (parseCert : List Nat → Option ParsedCert)
    (encodedKey : String) (failPut : String → Bool) (st : Storage) (now : Int) :
    ObtainOutcome :=
  if commonName = "" ∧ altNames = [] then
    ⟨ObtainResult.errorResponse "no domains specified on certificate", st, []⟩
  else
    match createVenafiCSR (promoteCN commonName altNames) altNames
        ⟨role.keyBits, role.keyCurve, role.keyType⟩ with
    | Except.error e => ⟨ObtainResult.errorResponse e, st, []⟩
    | Except.ok _ =>
      match submit with
      | Except.error e => ⟨ObtainResult.errorResponse e, st, []⟩
      | Except.ok _ =>
        match retrieveLoop outcomes 0 with
        | none => ⟨ObtainResult.stillPolling, st, []⟩
        | some (Except.error m, _) => ⟨ObtainResult.errorResponse m, st, []⟩
        | some (Except.ok cert, _) =>
          match materializeCert decodePem parseCert (leafString cert) with
          | MatResult.crash => ⟨ObtainResult.crash, st, []⟩
          | MatResult.ok parsed serialNumber =>
            afterMaterialize role (promoteCN commonName altNames) cert parsed serialNumber
              encodedKey failPut st now

/-- Actions the revocation handler could have taken; it takes none. -/
inductive RevokeAction where
  | storageRead (key : String)
  | storageWrite (key : String)
  | caCall
deriving DecidableEq

/-- venafiCertRevoke: the revocation handler returns (nil, nil)
unconditionally. Modelled with explicit state passing and an action trace:
no response body, no error, storage unchanged, no actions. -/
def venafiCertRevoke (st : Storage) (_role _certificateUid : String) :
    (Option LogResp × Option String) × Storage × List RevokeAction :=
  ((none, none), st, [])

/-! Lemmas about the pipeline pieces. -/

theorem leafString_eq (cert : PEMCollection) : leafString cert = cert.certificate := rfl

theorem promoteCN_empty_cons (a : String) (r : List String) :
    promoteCN "" (a :: r) = a := by
  simp [promoteCN]

theorem materializeCert_ok (decodePem : String → Option PemBlock)
    (parseCert : List Nat → Option ParsedCert) (certificate : String)
    (blk : PemBlock) (parsed : ParsedCert)
    (hdecode : decodePem certificate = some blk)
    (hparse : parseCert blk.bytes = some parsed) :
    materializeCert decodePem parseCert certificate =
      MatResult.ok parsed (getHexFormatted parsed.serialBytes ":") := by
  simp only [materializeCert, hdecode, hparse]

theorem afterMaterialize_writes (role : RolePolicy) (commonName : String)
    (cert : PEMCollection) (parsed : ParsedCert) (serialNumber encodedKey : String)
    (failPut : String → Bool) (st : Storage) (now : Int) :
    (afterMaterialize role commonName cert parsed serialNumber encodedKey
        failPut st now).writes =
      (persistCert role (entryOf role cert encodedKey serialNumber)
        commonName serialNumber failPut st).2.1 := by
  unfold afterMaterialize
  split <;> rfl

theorem afterMaterialize_success (role : RolePolicy) (commonName : String)
    (cert : PEMCollection) (parsed : ParsedCert) (serialNumber encodedKey : String)
    (failPut : String → Bool) (st : Storage) (now : Int)
    (hok : (persistCert role (entryOf role cert encodedKey serialNumber)
        commonName serialNumber failPut st).2.2 = true) :
    (afterMaterialize role commonName cert parsed serialNumber encodedKey
        failPut st now).result =
      ObtainResult.ok (buildResponse role.generateLease
        (respDataOf commonName serialNumber cert encodedKey)
        serialNumber parsed.notAfter now) ∧
    (afterMaterialize role commonName cert parsed serialNumber encodedKey
        failPut st now).storage =
      (persistCert role (entryOf role cert encodedKey serialNumber)
        commonName serialNumber failPut st).1 := by
  unfold afterMaterialize
  rw [hok]
  exact ⟨rfl, rfl⟩

theorem persistCert_ok_of (role : RolePolicy) (entry : VenafiCert)
    (commonName serialNumber : String) (failPut : String → Bool) (st : Storage)
    (h1 : role.storeByCN = true → failPut ("certs/" ++ commonName) = false)
    (h2 : role.storeBySerial = true →
      failPut ("certs/" ++ normalizeSerial serialNumber) = false) :
    (persistCert role entry commonName serialNumber failPut st).2.2 = true := by
  unfold persistCert putStep
  cases hcn : role.storeByCN with
  | false =>
    simp only [Bool.false_eq_true, if_false]
    cases hser : role.storeBySerial with
    | false => simp
    | true => simp [h2 hser]
  | true =>
    simp only [if_true, h1 hcn, if_false, Bool.false_eq_true]
    cases hser : role.storeBySerial with
    | false => simp
    | true => simp [h2 hser]

theorem persistCert_writes_head (role : RolePolicy) (entry : VenafiCert)
    (commonName serialNumber : String) (failPut : String → Bool) (st : Storage)
    (hcn : role.storeByCN = true)
    (hput1 : failPut ("certs/" ++ commonName) = false) :
    (persistCert role entry commonName serialNumber failPut st).2.1.head? =
      some ("certs/" ++ commonName, entry) := by
  unfold persistCert putStep
  rw [hcn]
  simp only [if_true, hput1, if_false, Bool.false_eq_true]
  cases hser : role.storeBySerial with
  | false => simp
  | true =>
    cases hfs : failPut ("certs/" ++ normalizeSerial serialNumber) with
    | false => simp
    | true => simp

theorem persistCert_getEntry_cn (role : RolePolicy) (entry : VenafiCert)
    (commonName serialNumber : String) (failPut : String → Bool) (st : Storage)
    (hcn : role.storeByCN = true)
    (hput1 : failPut ("certs/" ++ commonName) = false)
    (h2 : role.storeBySerial = true →
      failPut ("certs/" ++ normalizeSerial serialNumber) = false) :
    getEntry (persistCert role entry commonName serialNumber failPut st).1
      ("certs/" ++ commonName) = some entry := by
  unfold persistCert putStep
  rw [hcn]
  simp only [if_true, hput1, if_false, Bool.false_eq_true]
  cases hser : role.storeBySerial with
  | false => simp [getEntry, putEntry]
  | true =>
    rw [h2 hser]
    simp only [if_false, Bool.false_eq_true, if_true]
    by_cases hk : ("certs/" ++ normalizeSerial serialNumber : String) = "certs/" ++ commonName
    · simp [getEntry, putEntry, hk]
    · simp [getEntry, putEntry, hk]

theorem pathVenafiCertObtain_success_shape (role : RolePolicy) (commonName : String)
    (altNames : List String) (submitId : String) (outcomes : List RetrieveOutcome)
    (decodePem : String → Option PemBlock) (parseCert : List Nat → Option ParsedCert)
    (encodedKey : String) (failPut : String → Bool) (st : Storage) (now : Int)
    (req : VReq) (key : KeyMaterial) (cert : PEMCollection) (sleeps : Nat)
    (blk : PemBlock) (parsed : ParsedCert)
    (hname : ¬(commonName = "" ∧ altNames = []))
    (hcsr : createVenafiCSR (promoteCN commonName altNames) altNames
        ⟨role.keyBits, role.keyCurve, role.keyType⟩ = Except.ok (req, key))
    (hloop : retrieveLoop outcomes 0 = some (Except.ok cert, sleeps))
    (hdecode : decodePem cert.certificate = some blk)
    (hparse : parseCert blk.bytes = some parsed) :
    pathVenafiCertObtain role commonName altNames (Except.ok submitId) outcomes
        decodePem parseCert encodedKey failPut st now =
      afterMaterialize role (promoteCN commonName altNames) cert parsed
        (getHexFormatted parsed.serialBytes ":") encodedKey failPut st now := by
  have hmat : materializeCert decodePem parseCert (leafString cert) =
      MatResult.ok parsed (getHexFormatted parsed.serialBytes ":") :=
    materializeCert_ok decodePem parseCert (leafString cert) blk parsed
      (by rw [leafString_eq]; exact hdecode) hparse
  simp only [pathVenafiCertObtain, if_neg hname, hcsr, hloop, hmat]

/-! Lemmas about the retrieval loop. -/

theorem retrieveLoop_append (pre xs : List RetrieveOutcome) (n : Nat)
    (h : ∀ o ∈ pre, isRetryable o = true) :
    retrieveLoop (pre ++ xs) n = retrieveLoop xs (n + pre.length) := by
  induction pre generalizing n with
  | nil => simp
  | cons o rest ih =>
    have ho : isRetryable o = true := h o (by simp)
    have hrest : ∀ x ∈ rest, isRetryable x = true := fun x hx => h x (by simp [hx])
    have harith : n + 1 + rest.length = n + (rest.length + 1) := by omega
    cases o with
    | issued c => simp [isRetryable] at ho
    | err m => simp [isRetryable] at ho
    | pending =>
      show retrieveLoop (rest ++ xs) (n + 1) = _
      rw [ih (n + 1) hrest, harith]
      rfl
    | timeout =>
      show retrieveLoop (rest ++ xs) (n + 1) = _
      rw [ih (n + 1) hrest, harith]
      rfl

theorem retrieveLoop_all_retryable (pre : List RetrieveOutcome) (n : Nat)
    (h : ∀ o ∈ pre, isRetryable o = true) :
    retrieveLoop pre n = none := by
  have := retrieveLoop_append pre [] n h
  simpa using this

/-! Lemmas about name assembly. -/

theorem buildDNSNames_count (altNames : List String) (cn : String) :
    (buildDNSNames altNames cn).count cn = max (altNames.count cn) 1 := by
  unfold buildDNSNames sliceContains
  by_cases hmem : cn ∈ altNames
  · have hany : altNames.any (fun x => decide (x = cn)) = true := by
      rw [List.any_eq_true]
      exact ⟨cn, hmem, by simp⟩
    have hpos : 0 < altNames.count cn := List.count_pos_iff.mpr hmem
    simp only [hany, if_true]
    omega
  · have hany : altNames.any (fun x => decide (x = cn)) = false := by
      rw [List.any_eq_false]
      intro x hx
      simp only [decide_eq_true_eq]
      intro hxc
      exact hmem (hxc ▸ hx)
    have hzero : altNames.count cn = 0 := List.count_eq_zero.mpr hmem
    simp only [hany, if_false, Bool.false_eq_true]
    rw [List.count_append, hzero]
    simp

theorem setKeyParams_dnsNames (r req : VReq) (pk : PrivKeyParams)
    (h : setKeyParams r pk = Except.ok req) : req.dnsNames = r.dnsNames := by
  unfold setKeyParams at h
  split at h
  · cases h; rfl
  · split at h
    · split at h
      · cases h; rfl
      · split at h
        · cases h; rfl
        · split at h
          · cases h; rfl
          · split at h
            · cases h; rfl
            · cases h; rfl
    · cases h

theorem createVenafiCSR_ok_dnsNames (cn : String) (altNames : List String)
    (pk : PrivKeyParams) (req : VReq) (key : KeyMaterial)
    (hok : createVenafiCSR cn altNames pk = Except.ok (req, key)) :
    req.dnsNames = buildDNSNames altNames (promoteCN cn altNames) := by
  unfold createVenafiCSR at hok
  split at hok
  · cases hok
  · split at hok
    · cases hok
    · rename_i req0 heq
      cases hok
      exact setKeyParams_dnsNames _ _ _ heq

/-- C1: in the retrieval loop the code retries, with one fixed
retrySleepSeconds sleep per retry, exactly on the pending and timeout
outcomes, with no attempt bound: after any all-retryable prefix an issued
outcome ends the loop with success and exactly that many sleeps, any other
error ends it with that error surfaced and that many sleeps, an
all-retryable outcome sequence leaves the loop still running, the sequence
pending, pending, issued gives exactly 2 sleeps, and a lone non-retryable
error gives zero sleeps. -/
theorem C1_retrieval_loop (pre rest : List RetrieveOutcome) (c : PEMCollection) (m : String)
    (hpre : ∀ o ∈ pre, isRetryable o = true) :
    retrieveLoop (pre ++ RetrieveOutcome.issued c :: rest) 0 =
      some (Except.ok c, pre.length) ∧
    retrieveLoop (pre ++ RetrieveOutcome.err m :: rest) 0 =
      some (Except.error m, pre.length) ∧
    retrieveLoop pre 0 = none ∧
    retrieveLoop [RetrieveOutcome.pending, RetrieveOutcome.pending,
        RetrieveOutcome.issued c] 0 = some (Except.ok c, 2) ∧
    retrieveLoop [RetrieveOutcome.err m] 0 = some (Except.error m, 0) ∧
    retrySleepSeconds = 5 := by
  refine ⟨?_, ?_, retrieveLoop_all_retryable pre 0 hpre, rfl, rfl, rfl⟩
  · rw [retrieveLoop_append pre _ 0 hpre]
    simp [retrieveLoop]
  · rw [retrieveLoop_append pre _ 0 hpre]
    simp [retrieveLoop]

/-- Witness for C1 at the concrete outcome sequences of the claim. -/
theorem C1_retrieval_loop_witness :
    (∀ o ∈ [RetrieveOutcome.pending, RetrieveOutcome.timeout], isRetryable o = true) ∧
    (retrieveLoop ([RetrieveOutcome.pending, RetrieveOutcome.timeout] ++
        RetrieveOutcome.issued ⟨"PEM", []⟩ :: []) 0 =
      some (Except.ok ⟨"PEM", []⟩, 2) ∧
    retrieveLoop ([RetrieveOutcome.pending, RetrieveOutcome.timeout] ++
        RetrieveOutcome.err "boom" :: []) 0 = some (Except.error "boom", 2) ∧
    retrieveLoop [RetrieveOutcome.pending, RetrieveOutcome.timeout] 0 = none ∧
    retrieveLoop [RetrieveOutcome.pending, RetrieveOutcome.pending,
        RetrieveOutcome.issued ⟨"PEM", []⟩] 0 = some (Except.ok ⟨"PEM", []⟩, 2) ∧
    retrieveLoop [RetrieveOutcome.err "boom"] 0 = some (Except.error "boom", 0) ∧
    retrySleepSeconds = 5) :=
  ⟨by decide,
    C1_retrieval_loop [RetrieveOutcome.pending, RetrieveOutcome.timeout] []
      ⟨"PEM", []⟩ "boom" (by decide)⟩

/-- C2 fails as stated: with commonName "a" already listed twice in the
alternative names, the built request keeps both copies, so the common name
does not appear exactly once. -/
theorem C2_cn_duplicated_counterexample :
    createVenafiCSR "a" ["a", "a"] ⟨2048, "", "rsa"⟩ =
      Except.ok (⟨"a", ["a", "a"], KeyType.rsa, 2048, none⟩, KeyMaterial.rsa 2048) ∧
    (⟨"a", ["a", "a"], KeyType.rsa, 2048, none⟩ : VReq).dnsNames.count "a" ≠ 1 := by
  decide

/-- C2 amended: for every built request the DNS names contain the possibly
promoted common name at least once; its multiplicity is the maximum of its
input multiplicity and 1, hence exactly once whenever the input
alternative names listed it at most once. -/
theorem C2_cn_in_dnsNames (cn : String) (altNames : List String) (pk : PrivKeyParams)
    (req : VReq) (key : KeyMaterial)
    (hok : createVenafiCSR cn altNames pk = Except.ok (req, key)) :
    1 ≤ req.dnsNames.count (promoteCN cn altNames) ∧
    req.dnsNames.count (promoteCN cn altNames) =
      max (altNames.count (promoteCN cn altNames)) 1 ∧
    (altNames.count (promoteCN cn altNames) ≤ 1 →
      req.dnsNames.count (promoteCN cn altNames) = 1) := by
  have hdns := createVenafiCSR_ok_dnsNames cn altNames pk req key hok
  rw [hdns, buildDNSNames_count]
  exact ⟨by omega, rfl, fun h => by omega⟩

/-- Witness for C2 amended at a concrete input with the common name absent
from the alternative names. -/
theorem C2_cn_in_dnsNames_witness :
    createVenafiCSR "example.com" ["www.example.com"] ⟨2048, "", "rsa"⟩ =
      Except.ok (⟨"example.com", ["www.example.com", "example.com"],
        KeyType.rsa, 2048, none⟩, KeyMaterial.rsa 2048) ∧
    (1 ≤ (⟨"example.com", ["www.example.com", "example.com"],
        KeyType.rsa, 2048, none⟩ : VReq).dnsNames.count
        (promoteCN "example.com" ["www.example.com"]) ∧
      (⟨"example.com", ["www.example.com", "example.com"],
        KeyType.rsa, 2048, none⟩ : VReq).dnsNames.count
        (promoteCN "example.com" ["www.example.com"]) =
        max ((["www.example.com"] : List String).count
          (promoteCN "example.com" ["www.example.com"])) 1 ∧
      ((["www.example.com"] : List String).count
          (promoteCN "example.com" ["www.example.com"]) ≤ 1 →
        (⟨"example.com", ["www.example.com", "example.com"],
          KeyType.rsa, 2048, none⟩ : VReq).dnsNames.count
          (promoteCN "example.com" ["www.example.com"]) = 1)) :=
  ⟨by decide,
    C2_cn_in_dnsNames "example.com" ["www.example.com"] ⟨2048, "", "rsa"⟩
      ⟨"example.com", ["www.example.com", "example.com"], KeyType.rsa, 2048, none⟩
      (KeyMaterial.rsa 2048) (by decide)⟩

/-- C3: with key type ec and a key curve outside the four named curves the
builder does not fail: it returns a request with no curve setting and an
ECDSA key generated from that unset default. -/
theorem C3_curve_fallthrough (cn : String) (altNames : List String) (pk : PrivKeyParams)
    (hname : ¬(cn = "" ∧ altNames = []))
    (hec : pk.keyType = "ec")
    (h224 : pk.keyCurve ≠ "P224") (h256 : pk.keyCurve ≠ "P256")
    (h384 : pk.keyCurve ≠ "P384") (h521 : pk.keyCurve ≠ "P521") :
    createVenafiCSR cn altNames pk =
      Except.ok ({ baseReq (promoteCN cn altNames) altNames with keyType := KeyType.ecdsa },
        KeyMaterial.ecdsa none) ∧
    ({ baseReq (promoteCN cn altNames) altNames with
        keyType := KeyType.ecdsa } : VReq).keyCurve = none := by
  constructor
  · unfold createVenafiCSR setKeyParams
    rw [if_neg hname, hec]
    simp only [h224, h256, h384, h521, if_false, if_true]
    rfl
  · rfl

/-- Witness for C3 at the empty key curve. -/
theorem C3_curve_fallthrough_witness :
    ¬(("e.com" : String) = "" ∧ ([] : List String) = []) ∧
    (createVenafiCSR "e.com" [] ⟨0, "", "ec"⟩ =
      Except.ok ({ baseReq (promoteCN "e.com" []) [] with keyType := KeyType.ecdsa },
        KeyMaterial.ecdsa none) ∧
    ({ baseReq (promoteCN "e.com" []) [] with
        keyType := KeyType.ecdsa } : VReq).keyCurve = none) :=
  ⟨by decide,
    C3_curve_fallthrough "e.com" [] ⟨0, "", "ec"⟩ (by decide) rfl
      (by decide) (by decide) (by decide) (by decide)⟩

/-- C4: at a leaf PEM the decoder rejects, and likewise at DER bytes the
parser rejects, the materializing step crashes on a nil dereference (the
source never checks the decode or parse result) instead of returning a
MalformedCertificate error. -/
theorem C4_parse_crash_evaluation :
    materializeCert (fun _ => none) (fun _ => some ⟨[170], 0⟩) "not a pem" =
      MatResult.crash ∧
    materializeCert (fun _ => some ⟨[1]⟩) (fun _ => none) "pem with bad der" =
      MatResult.crash := by
  decide

/-- C5: with both storage flags set and all writes succeeding, persistence
performs exactly two writes carrying the identical entry under the two
distinct keys, CN-keyed first; under a failure of the second, serial-keyed
write the operation fails while the CN-keyed write stays readable in the
resulting storage, with no rollback. -/
theorem C5_dual_writes (role : RolePolicy) (entry : VenafiCert)
    (commonName serialNumber : String) (st : Storage) (fp1 fp2 : String → Bool)
    (hcn : role.storeByCN = true) (hser : role.storeBySerial = true)
    (hdist : ("certs/" ++ commonName : String) ≠ "certs/" ++ normalizeSerial serialNumber)
    (h1cn : fp1 ("certs/" ++ commonName) = false)
    (h1ser : fp1 ("certs/" ++ normalizeSerial serialNumber) = false)
    (h2cn : fp2 ("certs/" ++ commonName) = false)
    (h2ser : fp2 ("certs/" ++ normalizeSerial serialNumber) = true) :
    persistCert role entry commonName serialNumber fp1 st =
      (putEntry (putEntry st ("certs/" ++ commonName) entry)
          ("certs/" ++ normalizeSerial serialNumber) entry,
        [("certs/" ++ commonName, entry),
          ("certs/" ++ normalizeSerial serialNumber, entry)], true) ∧
    ("certs/" ++ commonName : String) ≠ "certs/" ++ normalizeSerial serialNumber ∧
    persistCert role entry commonName serialNumber fp2 st =
      (putEntry st ("certs/" ++ commonName) entry,
        [("certs/" ++ commonName, entry)], false) ∧
    getEntry (persistCert role entry commonName serialNumber fp2 st).1
      ("certs/" ++ commonName) = some entry := by
  have h2 : persistCert role entry commonName serialNumber fp2 st =
      (putEntry st ("certs/" ++ commonName) entry,
        [("certs/" ++ commonName, entry)], false) := by
    unfold persistCert putStep
    rw [hcn, hser]
    simp [h2cn, h2ser]
  refine ⟨?_, hdist, h2, ?_⟩
  · unfold persistCert putStep
    rw [hcn, hser]
    simp [h1cn, h1ser]
  · rw [h2]
    simp [getEntry, putEntry]

/-- Witness for C5 at a concrete role, entry, names and write-failure
behaviors. -/
theorem C5_dual_writes_witness :
    ((⟨"rsa", 2048, "", true, true, false, false⟩ : RolePolicy).storeByCN = true ∧
      (fun k => k == "certs/AA-BB") ("certs/" ++ normalizeSerial "AA:BB") = true) ∧
    (persistCert ⟨"rsa", 2048, "", true, true, false, false⟩ ⟨"C", "CH", "", "AA:BB"⟩
        "example.com" "AA:BB" (fun _ => false) [] =
      (putEntry (putEntry [] ("certs/" ++ "example.com") ⟨"C", "CH", "", "AA:BB"⟩)
          ("certs/" ++ normalizeSerial "AA:BB") ⟨"C", "CH", "", "AA:BB"⟩,
        [("certs/" ++ "example.com", ⟨"C", "CH", "", "AA:BB"⟩),
          ("certs/" ++ normalizeSerial "AA:BB", ⟨"C", "CH", "", "AA:BB"⟩)], true) ∧
    ("certs/" ++ "example.com" : String) ≠ "certs/" ++ normalizeSerial "AA:BB" ∧
    persistCert ⟨"rsa", 2048, "", true, true, false, false⟩ ⟨"C", "CH", "", "AA:BB"⟩
        "example.com" "AA:BB" (fun k => k == "certs/AA-BB") [] =
      (putEntry [] ("certs/" ++ "example.com") ⟨"C", "CH", "", "AA:BB"⟩,
        [("certs/" ++ "example.com", ⟨"C", "CH", "", "AA:BB"⟩)], false) ∧
    getEntry (persistCert ⟨"rsa", 2048, "", true, true, false, false⟩
        ⟨"C", "CH", "", "AA:BB"⟩ "example.com" "AA:BB"
        (fun k => k == "certs/AA-BB") []).1 ("certs/" ++ "example.com") =
      some ⟨"C", "CH", "", "AA:BB"⟩) :=
  ⟨⟨rfl, by decide⟩,
    C5_dual_writes ⟨"rsa", 2048, "", true, true, false, false⟩ ⟨"C", "CH", "", "AA:BB"⟩
      "example.com" "AA:BB" [] (fun _ => false) (fun k => k == "certs/AA-BB")
      rfl rfl (by decide) rfl (by decide) (by decide) (by decide)⟩

/-- C6: a successful enrollment returns exactly the response assembled by
buildResponse from the role's generateLease flag; with the flag false that
is the flat data response with no lease field, with the flag true a leased
secret keyed internally by the serial number whose TTL is notAfter minus
the issuance time, passed through for every integer value including
negative ones. -/
theorem C6_lease_semantics (role : RolePolicy) (commonName : String)
    (altNames : List String) (submitId : String) (outcomes : List RetrieveOutcome)
    (decodePem : String → Option PemBlock) (parseCert : List Nat → Option ParsedCert)
    (encodedKey : String) (failPut : String → Bool) (st : Storage) (now : Int)
    (req : VReq) (key : KeyMaterial) (cert : PEMCollection) (sleeps : Nat)
    (blk : PemBlock) (parsed : ParsedCert)
    (hname : ¬(commonName = "" ∧ altNames = []))
    (hcsr : createVenafiCSR (promoteCN commonName altNames) altNames
        ⟨role.keyBits, role.keyCurve, role.keyType⟩ = Except.ok (req, key))
    (hloop : retrieveLoop outcomes 0 = some (Except.ok cert, sleeps))
    (hdecode : decodePem cert.certificate = some blk)
    (hparse : parseCert blk.bytes = some parsed)
    (hput1 : role.storeByCN = true →
      failPut ("certs/" ++ promoteCN commonName altNames) = false)
    (hput2 : role.storeBySerial = true →
      failPut ("certs/" ++ normalizeSerial (getHexFormatted parsed.serialBytes ":")) = false) :
    (pathVenafiCertObtain role commonName altNames (Except.ok submitId) outcomes
        decodePem parseCert encodedKey failPut st now).result =
      ObtainResult.ok (buildResponse role.generateLease
        (respDataOf (promoteCN commonName altNames)
          (getHexFormatted parsed.serialBytes ":") cert encodedKey)
        (getHexFormatted parsed.serialBytes ":") parsed.notAfter now) ∧
    (∀ d : RespData, ∀ s : String,
      buildResponse false d s parsed.notAfter now = LogResp.plain d) ∧
    (∀ d : RespData, ∀ s : String,
      buildResponse true d s parsed.notAfter now =
        LogResp.leased d s (parsed.notAfter - now)) := by
  have hshape := pathVenafiCertObtain_success_shape role commonName altNames submitId
    outcomes decodePem parseCert encodedKey failPut st now req key cert sleeps blk parsed
    hname hcsr hloop hdecode hparse
  have hok := persistCert_ok_of role (entryOf role cert encodedKey
      (getHexFormatted parsed.serialBytes ":"))
    (promoteCN commonName altNames) (getHexFormatted parsed.serialBytes ":") failPut st
    hput1 hput2
  refine ⟨?_, fun d s => rfl, fun d s => rfl⟩
  rw [hshape]
  exact (afterMaterialize_success role (promoteCN commonName altNames) cert parsed
    (getHexFormatted parsed.serialBytes ":") encodedKey failPut st now hok).1

/-- Witness for C6 at a concrete no-store, no-lease role and a one-shot
issued outcome. -/
theorem C6_lease_semantics_witness :
    (¬(("e.com" : String) = "" ∧ ([] : List String) = [])) ∧
    ((pathVenafiCertObtain ⟨"rsa", 2048, "", false, false, false, false⟩ "e.com" []
        (Except.ok "id") [RetrieveOutcome.issued ⟨"PEM", []⟩]
        (fun _ => some ⟨[170]⟩) (fun _ => some ⟨[170], 9⟩) "KEY"
        (fun _ => false) [] 3).result =
      ObtainResult.ok (buildResponse
        (⟨"rsa", 2048, "", false, false, false, false⟩ : RolePolicy).generateLease
        (respDataOf (promoteCN "e.com" []) (getHexFormatted [170] ":") ⟨"PEM", []⟩ "KEY")
        (getHexFormatted [170] ":") (9 : Int) 3) ∧
    (∀ d : RespData, ∀ s : String,
      buildResponse false d s (9 : Int) 3 = LogResp.plain d) ∧
    (∀ d : RespData, ∀ s : String,
      buildResponse true d s (9 : Int) 3 = LogResp.leased d s ((9 : Int) - 3))) :=
  ⟨by decide,
    C6_lease_semantics ⟨"rsa", 2048, "", false, false, false, false⟩ "e.com" [] "id"
      [RetrieveOutcome.issued ⟨"PEM", []⟩] (fun _ => some ⟨[170]⟩)
      (fun _ => some ⟨[170], 9⟩) "KEY" (fun _ => false) [] 3
      ⟨"e.com", ["e.com"], KeyType.rsa, 2048, none⟩ (KeyMaterial.rsa 2048)
      ⟨"PEM", []⟩ 0 ⟨[170]⟩ ⟨[170], 9⟩
      (by decide) (by decide) (by decide) rfl rfl
      (by intro h; cases h) (by intro h; cases h)⟩

/-- C7 fails as stated: with both name inputs empty and a key type outside
rsa and ec, the builder fails with the no-domains error, not with the
unsupported-key-algorithm error. -/
theorem C7_empty_names_counterexample :
    createVenafiCSR "" [] ⟨2048, "", "dsa"⟩ =
      Except.error "no domains specified on certificate" ∧
    ("no domains specified on certificate" : String) ≠
      "can\x27t determine key algorithm dsa" := by
  decide

/-- C7 amended: for every name input with at least one name present, a key
type outside rsa and ec makes the builder fail with the
unsupported-key-algorithm error, and no key material is ever produced. -/
theorem C7_unsupported_algorithm (cn : String) (altNames : List String)
    (pk : PrivKeyParams)
    (hname : ¬(cn = "" ∧ altNames = []))
    (h1 : pk.keyType ≠ "rsa") (h2 : pk.keyType ≠ "ec") :
    createVenafiCSR cn altNames pk =
      Except.error ("can\x27t determine key algorithm " ++ pk.keyType) ∧
    ∀ req : VReq, ∀ key : KeyMaterial,
      createVenafiCSR cn altNames pk ≠ Except.ok (req, key) := by
  have heq : createVenafiCSR cn altNames pk =
      Except.error ("can\x27t determine key algorithm " ++ pk.keyType) := by
    unfold createVenafiCSR setKeyParams
    rw [if_neg hname]
    simp [h1, h2]
  exact ⟨heq, fun req key hok => by rw [heq] at hok; cases hok⟩

/-- Witness for C7 amended at the key type dsa. -/
theorem C7_unsupported_algorithm_witness :
    (¬(("e.com" : String) = "" ∧ ([] : List String) = [])) ∧
    (createVenafiCSR "e.com" [] ⟨2048, "", "dsa"⟩ =
      Except.error ("can\x27t determine key algorithm " ++ "dsa") ∧
    ∀ req : VReq, ∀ key : KeyMaterial,
      createVenafiCSR "e.com" [] ⟨2048, "", "dsa"⟩ ≠ Except.ok (req, key)) :=
  ⟨by decide,
    C7_unsupported_algorithm "e.com" [] ⟨2048, "", "dsa"⟩ (by decide)
      (by decide) (by decide)⟩

/-- C8: in a successful enrollment the response data always carries the
encoded private key whatever the storePrivateKey flag, while the persisted
entry under the CN key carries it exactly when storePrivateKey is set. -/
theorem C8_private_key_exposure (role : RolePolicy) (commonName : String)
    (altNames : List String) (submitId : String) (outcomes : List RetrieveOutcome)
    (decodePem : String → Option PemBlock) (parseCert : List Nat → Option ParsedCert)
    (encodedKey : String) (failPut : String → Bool) (st : Storage) (now : Int)
    (req : VReq) (key : KeyMaterial) (cert : PEMCollection) (sleeps : Nat)
    (blk : PemBlock) (parsed : ParsedCert)
    (hname : ¬(commonName = "" ∧ altNames = []))
    (hcsr : createVenafiCSR (promoteCN commonName altNames) altNames
        ⟨role.keyBits, role.keyCurve, role.keyType⟩ = Except.ok (req, key))
    (hloop : retrieveLoop outcomes 0 = some (Except.ok cert, sleeps))
    (hdecode : decodePem cert.certificate = some blk)
    (hparse : parseCert blk.bytes = some parsed)
    (hcn : role.storeByCN = true)
    (hput1 : failPut ("certs/" ++ promoteCN commonName altNames) = false)
    (hput2 : role.storeBySerial = true →
      failPut ("certs/" ++ normalizeSerial (getHexFormatted parsed.serialBytes ":")) = false)
    (hk : encodedKey ≠ "") :
    (pathVenafiCertObtain role commonName altNames (Except.ok submitId) outcomes
        decodePem parseCert encodedKey failPut st now).result =
      ObtainResult.ok (buildResponse role.generateLease
        (respDataOf (promoteCN commonName altNames)
          (getHexFormatted parsed.serialBytes ":") cert encodedKey)
        (getHexFormatted parsed.serialBytes ":") parsed.notAfter now) ∧
    ((buildResponse role.generateLease
        (respDataOf (promoteCN commonName altNames)
          (getHexFormatted parsed.serialBytes ":") cert encodedKey)
        (getHexFormatted parsed.serialBytes ":") parsed.notAfter now).dataOf).privateKey =
      encodedKey ∧
    getEntry (pathVenafiCertObtain role commonName altNames (Except.ok submitId) outcomes
        decodePem parseCert encodedKey failPut st now).storage
        ("certs/" ++ promoteCN commonName altNames) =
      some (entryOf role cert encodedKey (getHexFormatted parsed.serialBytes ":")) ∧
    ((entryOf role cert encodedKey (getHexFormatted parsed.serialBytes ":")).privateKey =
        encodedKey ↔ role.storePrivateKey = true) := by
  have hshape := pathVenafiCertObtain_success_shape role commonName altNames submitId
    outcomes decodePem parseCert encodedKey failPut st now req key cert sleeps blk parsed
    hname hcsr hloop hdecode hparse
  have hok := persistCert_ok_of role (entryOf role cert encodedKey
      (getHexFormatted parsed.serialBytes ":"))
    (promoteCN commonName altNames) (getHexFormatted parsed.serialBytes ":") failPut st
    (fun _ => hput1) hput2
  have hsucc := afterMaterialize_success role (promoteCN commonName altNames) cert parsed
    (getHexFormatted parsed.serialBytes ":") encodedKey failPut st now hok
  refine ⟨by rw [hshape]; exact hsucc.1, ?_, ?_, ?_⟩
  · unfold buildResponse
    split <;> rfl
  · rw [hshape, hsucc.2]
    exact persistCert_getEntry_cn role _ (promoteCN commonName altNames) _ failPut st
      hcn hput1 hput2
  · cases hpk : role.storePrivateKey with
    | true => simp [entryOf, venafiCertEntry, hpk]
    | false =>
      simp only [entryOf, venafiCertEntry, hpk, Bool.false_eq_true, if_false]
      constructor
      · intro h
        exact absurd h.symm hk
      · intro h
        cases h

/-- Witness for C8 at a concrete CN-storing, lease-generating role. -/
theorem C8_private_key_exposure_witness :
    (("KEY" : String) ≠ "") ∧
    ((pathVenafiCertObtain ⟨"rsa", 2048, "", true, false, true, true⟩ "e.com" []
        (Except.ok "id") [RetrieveOutcome.issued ⟨"PEM", []⟩]
        (fun _ => some ⟨[170]⟩) (fun _ => some ⟨[170], 9⟩) "KEY"
        (fun _ => false) [] 3).result =
      ObtainResult.ok (buildResponse
        (⟨"rsa", 2048, "", true, false, true, true⟩ : RolePolicy).generateLease
        (respDataOf (promoteCN "e.com" []) (getHexFormatted [170] ":") ⟨"PEM", []⟩ "KEY")
        (getHexFormatted [170] ":") (9 : Int) 3) ∧
    ((buildResponse (⟨"rsa", 2048, "", true, false, true, true⟩ : RolePolicy).generateLease
        (respDataOf (promoteCN "e.com" []) (getHexFormatted [170] ":") ⟨"PEM", []⟩ "KEY")
        (getHexFormatted [170] ":") (9 : Int) 3).dataOf).privateKey = "KEY" ∧
    getEntry (pathVenafiCertObtain ⟨"rsa", 2048, "", true, false, true, true⟩ "e.com" []
        (Except.ok "id") [RetrieveOutcome.issued ⟨"PEM", []⟩]
        (fun _ => some ⟨[170]⟩) (fun _ => some ⟨[170], 9⟩) "KEY"
        (fun _ => false) [] 3).storage ("certs/" ++ promoteCN "e.com" []) =
      some (entryOf ⟨"rsa", 2048, "", true, false, true, true⟩ ⟨"PEM", []⟩ "KEY"
        (getHexFormatted [170] ":")) ∧
    ((entryOf ⟨"rsa", 2048, "", true, false, true, true⟩ ⟨"PEM", []⟩ "KEY"
        (getHexFormatted [170] ":")).privateKey = "KEY" ↔
      (⟨"rsa", 2048, "", true, false, true, true⟩ : RolePolicy).storePrivateKey = true)) :=
  ⟨by decide,
    C8_private_key_exposure ⟨"rsa", 2048, "", true, false, true, true⟩ "e.com" [] "id"
      [RetrieveOutcome.issued ⟨"PEM", []⟩] (fun _ => some ⟨[170]⟩)
      (fun _ => some ⟨[170], 9⟩) "KEY" (fun _ => false) [] 3
      ⟨"e.com", ["e.com"], KeyType.rsa, 2048, none⟩ (KeyMaterial.rsa 2048)
      ⟨"PEM", []⟩ 0 ⟨[170]⟩ ⟨[170], 9⟩
      (by decide) (by decide) (by decide) rfl rfl rfl rfl
      (by intro h; cases h) (by decide)⟩

/-- C9: the revocation handler returns no error and no response body,
leaves the storage exactly as it was, and performs no storage or CA
action. -/
theorem C9_revoke_noop (st : Storage) (role certificateUid : String) :
    venafiCertRevoke st role certificateUid = ((none, none), st, []) := rfl

/-- C10: with an empty common name, a non-empty alternative-name list and
a CN-storing role, the first (CN-keyed) persistence write of a successful
enrollment uses the promoted first alternative name raw: its key is the
concatenation of the certs/ prefix and that name. -/
theorem C10_promoted_cn_key (role : RolePolicy) (a : String) (altRest : List String)
    (submitId : String) (outcomes : List RetrieveOutcome)
    (decodePem : String → Option PemBlock) (parseCert : List Nat → Option ParsedCert)
    (encodedKey : String) (failPut : String → Bool) (st : Storage) (now : Int)
    (req : VReq) (key : KeyMaterial) (cert : PEMCollection) (sleeps : Nat)
    (blk : PemBlock) (parsed : ParsedCert)
    (hcsr : createVenafiCSR a (a :: altRest)
        ⟨role.keyBits, role.keyCurve, role.keyType⟩ = Except.ok (req, key))
    (hloop : retrieveLoop outcomes 0 = some (Except.ok cert, sleeps))
    (hdecode : decodePem cert.certificate = some blk)
    (hparse : parseCert blk.bytes = some parsed)
    (hcn : role.storeByCN = true)
    (hput1 : failPut ("certs/" ++ a) = false) :
    (pathVenafiCertObtain role "" (a :: altRest) (Except.ok submitId) outcomes
        decodePem parseCert encodedKey failPut st now).writes.head? =
      some ("certs/" ++ a,
        entryOf role cert encodedKey (getHexFormatted parsed.serialBytes ":")) := by
  have hprom := promoteCN_empty_cons a altRest
  have hshape := pathVenafiCertObtain_success_shape role "" (a :: altRest) submitId
    outcomes decodePem parseCert encodedKey failPut st now req key cert sleeps blk parsed
    (by simp) (by rw [hprom]; exact hcsr) hloop hdecode hparse
  rw [hshape, hprom, afterMaterialize_writes]
  exact persistCert_writes_head role _ a _ failPut st hcn hput1

/-- Witness for C10 at a concrete promoted name. -/
theorem C10_promoted_cn_key_witness :
    ((⟨"rsa", 2048, "", true, false, false, false⟩ : RolePolicy).storeByCN = true) ∧
    ((pathVenafiCertObtain ⟨"rsa", 2048, "", true, false, false, false⟩ ""
        ["example.com"] (Except.ok "id") [RetrieveOutcome.issued ⟨"PEM", []⟩]
        (fun _ => some ⟨[170]⟩) (fun _ => some ⟨[170], 9⟩) "KEY"
        (fun _ => false) [] 3).writes.head? =
      some ("certs/" ++ "example.com",
        entryOf ⟨"rsa", 2048, "", true, false, false, false⟩ ⟨"PEM", []⟩ "KEY"
          (getHexFormatted [170] ":"))) :=
  ⟨rfl,
    C10_promoted_cn_key ⟨"rsa", 2048, "", true, false, false, false⟩ "example.com" []
      "id" [RetrieveOutcome.issued ⟨"PEM", []⟩] (fun _ => some ⟨[170]⟩)
      (fun _ => some ⟨[170], 9⟩) "KEY" (fun _ => false) [] 3
      ⟨"example.com", ["example.com"], KeyType.rsa, 2048, none⟩ (KeyMaterial.rsa 2048)
      ⟨"PEM", []⟩ 0 ⟨[170]⟩ ⟨[170], 9⟩
      (by decide) rfl rfl rfl rfl rfl⟩

end VenafiPKI
